import Mathlib

/-!
Shallow embedding of `src/example_book.py`.

Prices and percentages are modelled as rationals (`ℚ`); the Python code uses
floats, but every numeric claim is stated up to floating-point tolerance, so
exact rational arithmetic is the faithful idealisation.  A raised Python
exception is modelled as an explicit error value (`Err`); `set_price` returns
the post-state together with an optional error, mirroring the fact that the
`raise` happens before any assignment, so the state is returned unchanged on
the error path.  The random draw `random.randint(100, 1000)` made by
`Book.__init__` is an external capability and is passed in as the injected
value `rnd`.
-/

/-- The two error kinds of the program: `ValueError` raised on invalid
arguments, and `AttributeError` raised when reading a deleted attribute. -/
inductive Err where
  | invalidArgument
  | attributeMissing
  deriving DecidableEq, Repr

/-- State of a `Book` instance: `_title`, `_author`, `_price`, `_page_count`
(present or deleted), and the public `seller` attribute. -/
structure Book where
  title : String
  author : String
  price : ℚ
  pageCount : Option ℤ
  seller : Option String
  deriving DecidableEq, Repr

/-- Class-level constant `Book.CATEGORY_CODE`. -/
def Book.CATEGORY_CODE : String := "BOOK"

/-- `Book.__init__`: assigns `_title`, `_author`, `_price`, draws
`_page_count` from the random source (injected here as `rnd`, the result of
`random_page_count()`), and assigns `seller`.  No validation of any field. -/
def Book.init (title author : String) (price : ℚ) (seller : Option String)
    (rnd : ℤ) : Book :=
  { title := title, author := author, price := price,
    pageCount := some rnd, seller := seller }

/-- `Book.summary`: the data `f"{self._title} by {self._author} - ${self._price:.2f}"`
formats, namely title, author and current price (decimal rendering of the
transcript is out of scope). -/
def Book.summary (b : Book) : String × String × ℚ :=
  (b.title, b.author, b.price)

/-- `Book.get_price`: returns `self._price`. -/
def Book.get_price (b : Book) : ℚ := b.price

/-- `Book.set_price`: raises `ValueError` if `price < 0` (state untouched),
otherwise assigns `self._price = price`. -/
def Book.set_price (b : Book) (price : ℚ) : Book × Option Err :=
  if price < 0 then (b, some Err.invalidArgument)
  else ({ b with price := price }, none)

/-- `Book.get_category_code` (classmethod): returns `cls.CATEGORY_CODE`. -/
def Book.get_category_code : String := Book.CATEGORY_CODE

/-- `Book.page_count` property getter: returns `self._page_count`, raising
`AttributeError` when the attribute has been deleted. -/
def Book.page_count_get (b : Book) : Except Err ℤ :=
  match b.pageCount with
  | some v => Except.ok v
  | none => Except.error Err.attributeMissing

/-- `Book.page_count` property setter: `self._page_count = value`,
unconditionally. -/
def Book.page_count_set (b : Book) (value : ℤ) : Book :=
  { b with pageCount := some value }

/-- `Book.page_count` property deleter: `del self._page_count`. -/
def Book.page_count_del (b : Book) : Book :=
  { b with pageCount := none }

/-- `Book.calculate_discount`: raises `ValueError` unless
`0 <= percentage <= 100`, otherwise returns `self._price * (1 - percentage / 100)`. -/
def Book.calculate_discount (b : Book) (percentage : ℚ) : Except Err ℚ :=
  if ¬(0 ≤ percentage ∧ percentage ≤ 100) then Except.error Err.invalidArgument
  else Except.ok (b.price * (1 - percentage / 100))

/-- State of a `Magazine` instance: `_name`, `_price`, `_issue_number`. -/
structure Magazine where
  name : String
  price : ℚ
  issueNumber : ℤ
  deriving DecidableEq, Repr

/-- `Magazine.__init__`: assigns the three fields, no validation. -/
def Magazine.init (name : String) (price : ℚ) (issue_number : ℤ) : Magazine :=
  { name := name, price := price, issueNumber := issue_number }

/-- `Magazine.get_price`: returns `self._price`. -/
def Magazine.get_price (m : Magazine) : ℚ := m.price

/-- `Magazine.set_price`: raises `ValueError` if `price < 0` (state
untouched), otherwise assigns `self._price = price`. -/
def Magazine.set_price (m : Magazine) (price : ℚ) : Magazine × Option Err :=
  if price < 0 then (m, some Err.invalidArgument)
  else ({ m with price := price }, none)

/-- `Magazine.calculate_discount`: raises `ValueError` unless
`0 <= percentage <= 100`; computes `base_discount = self._price * (1 - percentage / 100)`
and returns `base_discount * 0.9` when `self._price > 10`, else `base_discount`. -/
def Magazine.calculate_discount (m : Magazine) (percentage : ℚ) : Except Err ℚ :=
  if ¬(0 ≤ percentage ∧ percentage ≤ 100) then Except.error Err.invalidArgument
  else
    let base_discount := m.price * (1 - percentage / 100)
    if 10 < m.price then Except.ok (base_discount * (9 / 10))
    else Except.ok base_discount

/-- The `PricedItem` abstract base class: the capability set
`{get_price, set_price, calculate_discount}`. -/
class PricedItem (α : Type) where
  get_price : α → ℚ
  set_price : α → ℚ → α × Option Err
  calculate_discount : α → ℚ → Except Err ℚ

instance : PricedItem Book where
  get_price := Book.get_price
  set_price := Book.set_price
  calculate_discount := Book.calculate_discount

instance : PricedItem Magazine where
  get_price := Magazine.get_price
  set_price := Magazine.set_price
  calculate_discount := Magazine.calculate_discount

/-- One line of the transcript `main` prints, with the printed payloads kept
as structured data (string formatting is out of scope). -/
inductive Event where
  | summaryEvt (title author : String) (price : ℚ)
  | sellerEvt (s : Option String)
  | setPriceTried (arg : ℚ) (err : Option Err)
  | priceEvt (p : ℚ)
  | categoryEvt (c : String)
  | pageCountEvt (r : Except Err ℤ)
  | pageCountTried (r : Except Err ℤ)
  | itemPriceInfo (orig : ℚ) (discounted : Except Err ℚ)
  deriving Repr

/-- `print_item_price_info(item)`: prints the original price and the price
with a 20% discount, for any `PricedItem`. -/
def print_item_price_info {α : Type} [PricedItem α] (item : α) : List Event :=
  [Event.itemPriceInfo (PricedItem.get_price item)
      (PricedItem.calculate_discount item 20)]

/-- `main()`: the fixed driver run, as the list of transcript events it
prints, parameterised by the random page count `rnd` drawn at `Book`
construction.  The `try/except` around `set_price(12.99)` is modelled by
recording the call's argument and the error it raised (if any); the
`try/except` around the post-deletion `page_count` read is modelled by
`pageCountTried` recording the read's outcome. -/
def main_trace (rnd : ℤ) : List Event :=
  let harry0 := Book.init "Harry Potter" "J.K. Rowling" ((1099 : ℚ) / 100)
      (some "Flourish & Blotts") rnd
  let s0 := harry0.summary
  let e1 := Event.summaryEvt s0.1 s0.2.1 s0.2.2
  let e2 := Event.sellerEvt harry0.seller
  let harry1 : Book := { harry0 with seller := some "Obscurus Books" }
  let e3 := Event.sellerEvt harry1.seller
  let sp := harry1.set_price ((1299 : ℚ) / 100)
  let harry2 := sp.1
  let e4 := Event.setPriceTried ((1299 : ℚ) / 100) sp.2
  let s1 := harry2.summary
  let e5 := Event.summaryEvt s1.1 s1.2.1 s1.2.2
  let e6 := Event.priceEvt harry2.get_price
  let e7 := Event.categoryEvt Book.get_category_code
  let e8 := Event.pageCountEvt harry2.page_count_get
  let harry3 := harry2.page_count_set 500
  let e9 := Event.pageCountEvt harry3.page_count_get
  let harry4 := harry3.page_count_del
  let e10 := Event.pageCountTried harry4.page_count_get
  let vogue := Magazine.init "Vogue" ((1299 : ℚ) / 100) 123
  [e1, e2, e3, e4, e5, e6, e7, e8, e9, e10]
    ++ print_item_price_info harry4 ++ print_item_price_info vogue

/-- The `set_price` calls a transcript records, as (argument, raised error)
pairs, in order. -/
def setPriceTrials (es : List Event) : List (ℚ × Option Err) :=
  es.filterMap fun e =>
    match e with
    | Event.setPriceTried a r => some (a, r)
    | _ => none

/-- Whether a transcript contains a `set_price` call with a negative argument
that raised `InvalidArgument` — the failure path the spec says `main`
exercises. -/
def exercisesSetPriceFailure (es : List Event) : Bool :=
  es.any fun e =>
    match e with
    | Event.setPriceTried a (some Err.invalidArgument) => decide (a < 0)
    | _ => false

/-! ### Claims -/

/-- Claim C1 (counterexample): in the fixed run of `main` (shown here at the
concrete random page count 437, the value of the transcript reproduced in the
source file), no `set_price` call is made with a negative argument raising
`InvalidArgument` — the induced failure path the spec describes is never
exercised. -/
theorem claim1_counterexample :
    exercisesSetPriceFailure (main_trace 437) = false := by
  simp [main_trace, exercisesSetPriceFailure, Book.init, Book.set_price, Book.summary,
    Book.get_price, Book.get_category_code, Book.CATEGORY_CODE, Book.page_count_get,
    Book.page_count_set, Book.page_count_del, Magazine.init, print_item_price_info,
    Magazine.get_price, PricedItem.get_price, PricedItem.calculate_discount, List.any]
  norm_num

/-- Claim C1 (amended): whatever the random page count, `main` performs
exactly one `set_price` call, with argument 12.99, which succeeds (raises
nothing); the `set_price` failure path is never exercised during the run. -/
theorem claim1_amended_no_failure_path (rnd : ℤ) :
    setPriceTrials (main_trace rnd) = [(((1299 : ℚ) / 100), none)] ∧
    exercisesSetPriceFailure (main_trace rnd) = false := by
  constructor <;>
  · simp [main_trace, setPriceTrials, exercisesSetPriceFailure, Book.init, Book.set_price,
      Book.summary, Book.get_price, Book.get_category_code, Book.CATEGORY_CODE,
      Book.page_count_get, Book.page_count_set, Book.page_count_del, Magazine.init,
      print_item_price_info, Book.calculate_discount, Magazine.calculate_discount,
      Magazine.get_price, PricedItem.get_price, PricedItem.calculate_discount,
      List.filterMap, List.any]
    norm_num

/-- Claim C2: for every `Magazine` with stored price `q` and percentage `pct`
in `[0, 100]`, `calculate_discount pct` returns `q * (1 - pct/100)` when
`q ≤ 10`, and `q * (1 - pct/100) * 0.9` when `q > 10` — the extra-discount
branch is decided by the stored price, not the discounted base. -/
theorem claim2_magazine_discount (m : Magazine) (pct : ℚ) (h0 : 0 ≤ pct)
    (h1 : pct ≤ 100) :
    (m.price ≤ 10 →
      m.calculate_discount pct = Except.ok (m.price * (1 - pct / 100))) ∧
    (10 < m.price →
      m.calculate_discount pct
        = Except.ok (m.price * (1 - pct / 100) * (9 / 10))) := by
  unfold Magazine.calculate_discount
  rw [if_neg (not_not_intro ⟨h0, h1⟩)]
  dsimp only
  constructor
  · intro hle
    rw [if_neg (not_lt.mpr hle)]
  · intro hgt
    rw [if_pos hgt]

/-- Claim C2 witness: the Vogue magazine of the driver (price 12.99 > 10)
gets the extra 10% off on a 20% discount. -/
theorem claim2_witness :
    (Magazine.init "Vogue" ((1299 : ℚ) / 100) 123).calculate_discount 20
      = Except.ok (((1299 : ℚ) / 100) * (1 - 20 / 100) * (9 / 10)) := by
  exact (claim2_magazine_discount (Magazine.init "Vogue" ((1299 : ℚ) / 100) 123)
    20 (by norm_num) (by norm_num)).2 (by norm_num [Magazine.init])

/-- Claim C3: for every `Book` or `Magazine` and every `p < 0`,
`set_price p` raises `InvalidArgument` and returns the state unchanged. -/
theorem claim3_negative_set_price_rejected (b : Book) (m : Magazine) (p : ℚ)
    (h : p < 0) :
    b.set_price p = (b, some Err.invalidArgument) ∧
    m.set_price p = (m, some Err.invalidArgument) := by
  unfold Book.set_price Magazine.set_price
  rw [if_pos h, if_pos h]
  exact ⟨rfl, rfl⟩

/-- Claim C3 witness: `set_price (-1)` on a concrete book and magazine fails
with `InvalidArgument`, leaving the state unchanged. -/
theorem claim3_witness :
    (Book.init "Harry Potter" "J.K. Rowling" ((1099 : ℚ) / 100) none 437).set_price (-1)
      = (Book.init "Harry Potter" "J.K. Rowling" ((1099 : ℚ) / 100) none 437,
         some Err.invalidArgument) ∧
    (Magazine.init "Vogue" ((1299 : ℚ) / 100) 123).set_price (-1)
      = (Magazine.init "Vogue" ((1299 : ℚ) / 100) 123, some Err.invalidArgument) :=
  claim3_negative_set_price_rejected _ _ (-1) (by norm_num)

/-- Claim C4: after deleting `page_count`, every read fails with
`AttributeMissing`; `set_price` in between does not resurrect it; after a
subsequent set to `v` (any value, no validation) the read returns `v`. -/
theorem claim4_page_count_unset_lifecycle (b : Book) (v : ℤ) (q : ℚ) :
    b.page_count_del.page_count_get = Except.error Err.attributeMissing ∧
    ((b.page_count_del).set_price q).1.pageCount = none ∧
    ((b.page_count_del).page_count_set v).page_count_get = Except.ok v ∧
    (b.page_count_set v).page_count_get = Except.ok v := by
  refine ⟨rfl, ?_, rfl, rfl⟩
  unfold Book.set_price
  split <;> rfl

/-- Claim C5: for every `Book` and every `pct` in `[0, 100]`,
`calculate_discount pct` succeeds and returns `price * (1 - pct/100)`. -/
theorem claim5_book_discount_in_range (b : Book) (pct : ℚ) (h0 : 0 ≤ pct)
    (h1 : pct ≤ 100) :
    b.calculate_discount pct = Except.ok (b.price * (1 - pct / 100)) := by
  unfold Book.calculate_discount
  rw [if_neg (not_not_intro ⟨h0, h1⟩)]

/-- Claim C5 witness: the driver's book at price 12.99 discounted 20%. -/
theorem claim5_witness :
    (Book.init "Harry Potter" "J.K. Rowling" ((1299 : ℚ) / 100) none 437).calculate_discount 20
      = Except.ok (((1299 : ℚ) / 100) * (1 - 20 / 100)) :=
  claim5_book_discount_in_range _ 20 (by norm_num) (by norm_num)

/-- Claim C6: for every `Book` or `Magazine` and every `p ≥ 0`, `set_price p`
succeeds and a subsequent `get_price` returns exactly `p`. -/
theorem claim6_nonneg_set_price_roundtrip (b : Book) (m : Magazine) (p : ℚ)
    (h : 0 ≤ p) :
    (b.set_price p).2 = none ∧ (b.set_price p).1.get_price = p ∧
    (m.set_price p).2 = none ∧ (m.set_price p).1.get_price = p := by
  unfold Book.set_price Magazine.set_price
  rw [if_neg (not_lt.mpr h), if_neg (not_lt.mpr h)]
  exact ⟨rfl, rfl, rfl, rfl⟩

/-- Claim C6 witness: `set_price 12.99` on the driver's book and magazine
succeeds and `get_price` returns 12.99. -/
theorem claim6_witness :
    ((Book.init "Harry Potter" "J.K. Rowling" ((1099 : ℚ) / 100) none 437).set_price
        ((1299 : ℚ) / 100)).1.get_price = (1299 : ℚ) / 100 ∧
    ((Magazine.init "Vogue" ((1299 : ℚ) / 100) 123).set_price
        ((1299 : ℚ) / 100)).1.get_price = (1299 : ℚ) / 100 := by
  have h := claim6_nonneg_set_price_roundtrip
    (Book.init "Harry Potter" "J.K. Rowling" ((1099 : ℚ) / 100) none 437)
    (Magazine.init "Vogue" ((1299 : ℚ) / 100) 123)
    ((1299 : ℚ) / 100) (by norm_num)
  exact ⟨h.2.1, h.2.2.2⟩

/-- Claim C7: for every `Book` or `Magazine`, `calculate_discount pct` fails
with `InvalidArgument` when `pct < 0` or `pct > 100`, and does not fail when
`pct` lies in `[0, 100]`. -/
theorem claim7_discount_percentage_domain (b : Book) (m : Magazine) (pct : ℚ) :
    ((pct < 0 ∨ 100 < pct) →
      b.calculate_discount pct = Except.error Err.invalidArgument ∧
      m.calculate_discount pct = Except.error Err.invalidArgument) ∧
    (0 ≤ pct → pct ≤ 100 →
      (∃ r, b.calculate_discount pct = Except.ok r) ∧
      (∃ r, m.calculate_discount pct = Except.ok r)) := by
  constructor
  · intro hout
    have hg : ¬(0 ≤ pct ∧ pct ≤ 100) := by
      rintro ⟨ha, hb⟩
      rcases hout with h | h
      · exact absurd ha (not_le.mpr h)
      · exact absurd hb (not_le.mpr h)
    unfold Book.calculate_discount Magazine.calculate_discount
    rw [if_pos hg, if_pos hg]
    exact ⟨rfl, rfl⟩
  · intro h0 h1
    unfold Book.calculate_discount Magazine.calculate_discount
    rw [if_neg (not_not_intro ⟨h0, h1⟩), if_neg (not_not_intro ⟨h0, h1⟩)]
    refine ⟨⟨_, rfl⟩, ?_⟩
    dsimp only
    split
    · exact ⟨_, rfl⟩
    · exact ⟨_, rfl⟩

/-- Claim C7 witness: at `pct = 150` both discount methods fail with
`InvalidArgument`; at `pct = 20` both succeed. -/
theorem claim7_witness :
    (Book.init "Harry Potter" "J.K. Rowling" ((1099 : ℚ) / 100) none 437).calculate_discount 150
        = Except.error Err.invalidArgument ∧
    (∃ r, (Magazine.init "Vogue" ((1299 : ℚ) / 100) 123).calculate_discount 20
        = Except.ok r) := by
  constructor
  · exact ((claim7_discount_percentage_domain
      (Book.init "Harry Potter" "J.K. Rowling" ((1099 : ℚ) / 100) none 437)
      (Magazine.init "Vogue" ((1299 : ℚ) / 100) 123) 150).1
      (Or.inr (by norm_num))).1
  · exact ((claim7_discount_percentage_domain
      (Book.init "Harry Potter" "J.K. Rowling" ((1099 : ℚ) / 100) none 437)
      (Magazine.init "Vogue" ((1299 : ℚ) / 100) 123) 20).2
      (by norm_num) (by norm_num)).2

/-- Claim C8: construction never validates the initial price — for every
initial price, including negative ones, `Book.__init__` and
`Magazine.__init__` succeed (they are total) and `get_price` on the new
instance returns that price; only `set_price` checks non-negativity. -/
theorem claim8_constructor_skips_validation (t a : String) (p : ℚ)
    (s : Option String) (rnd : ℤ) (n : String) (i : ℤ) :
    (Book.init t a p s rnd).get_price = p ∧ (Magazine.init n p i).get_price = p :=
  ⟨rfl, rfl⟩

/-- Claim C9: a successful `set_price p` (`p ≥ 0`) on a `Book` mutates only
the stored price: title, author, seller and page count are unchanged. -/
theorem claim9_set_price_frame (b : Book) (p : ℚ) (h : 0 ≤ p) :
    (b.set_price p).2 = none ∧
    (b.set_price p).1.title = b.title ∧
    (b.set_price p).1.author = b.author ∧
    (b.set_price p).1.seller = b.seller ∧
    (b.set_price p).1.pageCount = b.pageCount ∧
    (b.set_price p).1.price = p := by
  unfold Book.set_price
  rw [if_neg (not_lt.mpr h)]
  exact ⟨rfl, rfl, rfl, rfl, rfl, rfl⟩

/-- Claim C9 witness: `set_price 12.99` on the driver's book leaves title,
author, seller and page count untouched. -/
theorem claim9_witness :
    ((Book.init "Harry Potter" "J.K. Rowling" ((1099 : ℚ) / 100)
        (some "Flourish & Blotts") 437).set_price ((1299 : ℚ) / 100)).1.title
      = "Harry Potter" ∧
    ((Book.init "Harry Potter" "J.K. Rowling" ((1099 : ℚ) / 100)
        (some "Flourish & Blotts") 437).set_price ((1299 : ℚ) / 100)).1.pageCount
      = some 437 := by
  have h := claim9_set_price_frame
    (Book.init "Harry Potter" "J.K. Rowling" ((1099 : ℚ) / 100)
      (some "Flourish & Blotts") 437) ((1299 : ℚ) / 100) (by norm_num)
  exact ⟨h.2.1, h.2.2.2.2.1⟩

/-- Claim C10: every freshly constructed `Book` has its page count present —
the constructor always assigns the random draw — so a `page_count` read on a
fresh instance succeeds (it returns the drawn value) and can only fail after
an explicit delete. -/
theorem claim10_fresh_book_page_count_present (t a : String) (p : ℚ)
    (s : Option String) (rnd : ℤ) :
    (Book.init t a p s rnd).pageCount = some rnd ∧
    (Book.init t a p s rnd).page_count_get = Except.ok rnd :=
  ⟨rfl, rfl⟩
